import Mathlib

/-!
Verification development for the `polkadot-locks-report` tool
(`src/main.rs`).  The program reads per-account chain state (class
locks, conviction-voting records, referendum status, balance locks,
vesting schedules), reconstructs time-bounded lock intervals, buckets
them into a six-entry unlock-horizon ladder, and composes a per-account
report document.

Modelling conventions of the shallow embedding:
* UTC instants are integers counting seconds since the Unix epoch
  (`chrono` arithmetic on `DateTime<Utc>`/`Duration` is exact at this
  granularity; sub-second parts play no role in the claims).
* `u8`/`u16`/`u32`/`u128` values are `ℕ`; a wrapping cast such as
  `total_blocks as u32` is an explicit `% 2^32`.  A checked `u32`
  subtraction that would underflow (a debug-build panic in Rust) is
  modelled as `Option.none`, as is the explicit `panic!` in
  `get_conviction_multiplier` and a `u128` division by zero.
* `f64` token amounts are modelled as exact rationals `ℚ`; binary
  floating-point rounding is not modelled.  `f64::abs` is embedded as
  `rat_abs`, `f64::EPSILON` as the exact rational `2⁻⁵²`.
* Fallible RPC reads are fields of a `FetchEnv` record of
  `Except Fail` values; Rust's `?` operator is the `Except` monad
  bind, and a Rust panic reached inside the pipeline is the distinct
  error `Fail.panicked`.
* Console output (`println!`/`eprintln!`) is ignored; functions whose
  only observable effect is printing return `Unit`.
-/

namespace LocksReport

/-- Failure modes that end a run: a transport error propagated by
Rust's `?` operator, or a Rust panic. -/
inductive Fail where
  | transport (msg : String)
  | panicked (msg : String)
deriving DecidableEq, Repr

/-- `const BASE_LOCK_PERIOD: u32 = 28` (days). -/
def BASE_LOCK_PERIOD : ℕ := 28

/-- `const SECONDS_PER_BLOCK: i64 = 6`. -/
def SECONDS_PER_BLOCK : ℤ := 6

/-- `const MINUTES_PER_HOUR: i64 = 60`. -/
def MINUTES_PER_HOUR : ℤ := 60

/-- `const HOURS_PER_DAY: i64 = 24`. -/
def HOURS_PER_DAY : ℤ := 24

/-- `const GENESIS_THRESHOLD: u32 = 9000000`. -/
def GENESIS_THRESHOLD : ℕ := 9000000

/-- Unix timestamp of `2020-05-26T15:36:18Z` (the early-block anchor
datetime built by `NaiveDate::from_ymd(2020, 5, 26).and_hms(15, 36, 18)`). -/
def EPOCH_2020 : ℤ := 1590507378

/-- Unix timestamp of `2023-08-25T13:01:00Z` (the late-block anchor
datetime built by `NaiveDate::from_ymd(2023, 8, 25).and_hms(13, 1, 0)`). -/
def EPOCH_2023 : ℤ := 1692968460

/-- `f64::EPSILON = 2⁻⁵²`, as an exact rational. -/
def F64_EPSILON : ℚ := 1 / 4503599627370496

/-- `f64::abs`, on the exact-rational model of amounts. -/
def rat_abs (q : ℚ) : ℚ := if q < 0 then -q else q

/-- `struct LockedInterval` : one contiguous conviction lock. -/
structure LockedInterval where
  start_date : ℤ
  end_date : ℤ
  amount : ℚ
deriving DecidableEq, Repr

/-- `pallet_referenda::types::ReferendumInfo`, keeping only the data the
program reads (a block number per variant). -/
inductive ReferendumInfo where
  | Ongoing (submitted : ℕ)
  | Approved (block : ℕ)
  | Rejected (block : ℕ)
  | Killed (block : ℕ)
  | Cancelled (block : ℕ)
  | TimedOut (block : ℕ)
deriving DecidableEq, Repr

/-- `pallet_conviction_voting::vote::AccountVote`.  `Standard` carries
the vote byte (`u8`: bit 7 = aye, low bits = conviction) and the
balance in base units (`u128`). -/
inductive AccountVote where
  | Standard (vote : ℕ) (balance : ℕ)
  | Split (aye nay : ℕ)
  | SplitAbstain (aye nay abstain : ℕ)
deriving DecidableEq, Repr

/-- `pallet_conviction_voting::vote::Voting`, keeping the vote list of
the `Casting` variant (pairs of referendum id and vote). -/
inductive Voting where
  | Casting (votes : List (ℕ × AccountVote))
  | Delegating
deriving DecidableEq, Repr

/-- `pallet_vesting::vesting_info::VestingInfo<u128, u32>`. -/
structure VestingInfo where
  locked : ℕ
  per_block : ℕ
  starting_block : ℕ
deriving DecidableEq, Repr

/-- `pallet_balances::types::BalanceLock<u128>`: an 8-byte id and an
amount in base units. -/
structure BalanceLock where
  id : List ℕ
  amount : ℕ
deriving DecidableEq, Repr

/-- The per-account outcome of every storage read the run performs,
plus the run's sampled wall clock.  Each field holds what the
corresponding `fetch_*` call (or finalized-head subscription) would
return: a transport failure (`Fail.transport`) or the decoded
optional value.  `current_block2` is the second, independent
finalized-head sample taken inside `display_vesting_info`
(`Option` because `blocks_sub.next()` may yield nothing, which that
function tolerates). -/
structure FetchEnv where
  balance : Except Fail (Option ℕ)
  account_locks : Except Fail (Option (List BalanceLock))
  class_locks : Except Fail (Option (List (ℕ × ℕ)))
  current_block : Except Fail ℕ
  voting : ℕ → Except Fail (Option Voting)
  ref_info : ℕ → Except Fail (Option ReferendumInfo)
  vesting : Except Fail (Option (List VestingInfo))
  current_block2 : Except Fail (Option ℕ)
  t_now : ℤ

/-- `get_conviction_multiplier`: `1 << conviction` for conviction 0–6,
`panic!` (here `none`) otherwise. -/
def get_conviction_multiplier (conviction : ℕ) : Option ℕ :=
  if conviction ≤ 6 then some (2 ^ conviction) else none

/-- `calculate_end_datetime(base_block, current_block, conviction)`.
Faithful to the source: the block difference is the checked `u32`
subtraction `current_block - base_block` (underflow, a debug-build
panic, is `none`); `base_block_datetime = now - 6·block_diff` seconds;
the lock period is `28 · 2^conviction · 24 · 60` minutes added to
`base_block_datetime`; and the returned pair is
`(current_block_datetime, end_datetime)` — the first component is the
wall clock `Utc::now()` (passed in as `t_now`), not the computed
`base_block_datetime`. -/
def calculate_end_datetime (base_block current_block conviction : ℕ)
    (t_now : ℤ) : Option (ℤ × ℤ) :=
  if base_block ≤ current_block then
    match get_conviction_multiplier conviction with
    | some m =>
        let block_diff : ℤ := (current_block : ℤ) - (base_block : ℤ)
        let base_block_datetime := t_now - SECONDS_PER_BLOCK * block_diff
        let lock_period_in_minutes :=
          (BASE_LOCK_PERIOD : ℤ) * (m : ℤ) * HOURS_PER_DAY * MINUTES_PER_HOUR
        some (t_now, base_block_datetime + 60 * lock_period_in_minutes)
    | none => none
  else none

/-- Extraction of the reference block from `ReferendumInfo`
(`process_casting_votes` lines 178–206): every variant yields its
block, an absent record yields the sentinel `0`. -/
def ref_block : Option ReferendumInfo → ℕ
  | none => 0
  | some (.Ongoing b) => b
  | some (.Approved b) => b
  | some (.Rejected b) => b
  | some (.Killed b) => b
  | some (.Cancelled b) => b
  | some (.TimedOut b) => b

/-- `process_casting_votes`: for each `(ref_num, vote_detail)`, fetch
the referendum info (`?`), extract the reference block, and — when the
block is non-zero and the vote is `Standard` — decode the conviction as
`vote.0 % 128` and emit a `LockedInterval` whose dates come from
`calculate_end_datetime` and whose amount is `balance / 10¹⁰`.
A panic inside `calculate_end_datetime` aborts with `Fail.panicked`. -/
def process_casting_votes (env : FetchEnv) (current_block : ℕ) :
    List (ℕ × AccountVote) → Except Fail (List LockedInterval)
  | [] => .ok []
  | (ref_num, vote_detail) :: rest => do
      let ref_data ← env.ref_info ref_num
      let block_number := ref_block ref_data
      let head ←
        (if block_number ≠ 0 then
          match vote_detail with
          | .Standard vote balance =>
              match calculate_end_datetime block_number current_block
                  (vote % 128) env.t_now with
              | some (s, e) =>
                  .ok [⟨s, e, (balance : ℚ) / 10000000000⟩]
              | none => .error (.panicked ("calculate_end_datetime"))
          | _ => .ok []
        else .ok [])
      let tail ← process_casting_votes env current_block rest
      .ok (head ++ tail)

/-- `process_class_locks`: for each class-lock pair, fetch the voting
record (`?`) and process the votes of a `Casting` variant. -/
def process_class_locks (env : FetchEnv) (current_block : ℕ) :
    List (ℕ × ℕ) → Except Fail (List LockedInterval)
  | [] => .ok []
  | (c, _) :: rest => do
      let votes_data ← env.voting c
      let head ←
        (match votes_data with
        | some (.Casting votes) => process_casting_votes env current_block votes
        | _ => .ok [])
      let tail ← process_class_locks env current_block rest
      .ok (head ++ tail)

/-- `categorize_lock_period`, as a function of the signed duration
`end_date - Utc::now()` in seconds.  `chrono`'s `num_days` is the
truncating (toward zero) division of seconds by 86400. -/
def categorize_lock_period (dur_secs : ℤ) : String :=
  let d := Int.tdiv dur_secs 86400
  if d ≤ 0 then "Locked 0 Days"
  else if d ≤ 7 then "Locked 1-7 Days"
  else if d ≤ 14 then "Locked 8-14 Days"
  else if d ≤ 28 then "Locked 15-28 Days"
  else if d ≤ 60 then "Locked 29-60 Days"
  else "Locked 60+ Days"

/-- The spec's bucketing function, written from the claim's words:
`d = floor((end_at − T_now) in days)` with the same six ranges
(floor division instead of the code's truncating division). -/
def bucket_by_floor_days (dur_secs : ℤ) : String :=
  let d := Int.fdiv dur_secs 86400
  if d ≤ 0 then "Locked 0 Days"
  else if d ≤ 7 then "Locked 1-7 Days"
  else if d ≤ 14 then "Locked 8-14 Days"
  else if d ≤ 28 then "Locked 15-28 Days"
  else if d ≤ 60 then "Locked 29-60 Days"
  else "Locked 60+ Days"

/-- The `lock_order` array of `display_liquidity_ladder`. -/
def lock_order : List String :=
  ["Locked 0 Days", "Locked 1-7 Days", "Locked 8-14 Days",
   "Locked 15-28 Days", "Locked 29-60 Days", "Locked 60+ Days"]

/-- The CSS-class match of `display_liquidity_ladder` (default arm is
the 60+ tag). -/
def class_of (cat : String) : String :=
  if cat = "Locked 0 Days" then "locked-0-days"
  else if cat = "Locked 1-7 Days" then "locked-1-7-days"
  else if cat = "Locked 8-14 Days" then "locked-8-14-days"
  else if cat = "Locked 15-28 Days" then "locked-15-28-days"
  else if cat = "Locked 29-60 Days" then "locked-29-60-days"
  else "locked-60-plus-days"

/-- One step of the intra-bucket reduction loop of
`display_liquidity_ladder` (lines 239–252).  The map models the
`HashMap<&str,(f64,DateTime)>`: `entry(category).or_default()` makes
the touched bucket present with default `(0.0, epoch)`, and the entry
is replaced when the new interval has a strictly larger amount, or an
amount within `f64::EPSILON` and a later end date. -/
def update_bucket (t_now : ℤ) (m : String → Option (ℚ × ℤ))
    (iv : LockedInterval) : String → Option (ℚ × ℤ) :=
  let category := categorize_lock_period (iv.end_date - t_now)
  let entry := (m category).getD (0, 0)
  let entry' :=
    if entry.1 < iv.amount ∨
        (rat_abs (iv.amount - entry.1) < F64_EPSILON ∧ entry.2 < iv.end_date)
    then (iv.amount, iv.end_date) else entry
  fun c => if c = category then some entry' else m c

/-- The `categorized_amounts` map after the intra-bucket reduction
loop: `none` for a bucket never touched, otherwise the kept
`(amount, end_date)` pair. -/
def categorized_amounts (t_now : ℤ) (ivs : List LockedInterval) :
    String → Option (ℚ × ℤ) :=
  ivs.foldl (update_bucket t_now) (fun _ => none)

/-- One emitted row of the ladder before JSON formatting: the bucket
name and, when the bucket was present in `categorized_amounts`, its
amount. -/
structure LadderEntry where
  lock_category : String
  amount : Option ℚ
deriving DecidableEq, Repr

/-- One iteration of the emission loop of `display_liquidity_ladder`
(lines 267–297): look the category up; when present, update
`max_lock_amount` (`if amount > max_lock_amount`) and push the
amount row; when absent push the `none` row.  The push happens in both
branches — `max_lock_amount` is updated but never consulted for the
emission. -/
def ladder_step (m : String → Option (ℚ × ℤ)) (acc : ℚ × List LadderEntry)
    (cat : String) : ℚ × List LadderEntry :=
  match m cat with
  | some (amount, _) =>
      ((if acc.1 < amount then amount else acc.1),
       acc.2 ++ [⟨cat, some amount⟩])
  | none => (acc.1, acc.2 ++ [⟨cat, none⟩])

/-- `display_liquidity_ladder`, up to JSON formatting: reduce the
intervals into buckets, then walk `lock_order.iter().rev()` — from
`Locked 60+ Days` down to `Locked 0 Days` — threading
`max_lock_amount` (initially `0.0`) and emitting one row per bucket. -/
def display_liquidity_ladder (t_now : ℤ) (ivs : List LockedInterval) :
    List LadderEntry :=
  (lock_order.reverse.foldl (ladder_step (categorized_amounts t_now ivs))
    (0, [])).2

/-- The decimal digits string of the fractional part for `{:.10}`
formatting: exactly ten digits, most significant first. -/
def frac_digits10 (n : ℕ) : String :=
  String.mk ((List.range 10).map (fun i => Nat.digitChar (n / 10 ^ (9 - i) % 10)))

/-- `format!("{:.10}", q)` on the exact-rational model of a
non-negative amount: round `q` to 10 fractional decimal digits
(half away from zero) and print with exactly ten digits after the
point.  (Binary `f64` rounding is not modelled.) -/
def format_fixed10 (q : ℚ) : String :=
  let n : ℕ := (⌊q * 10000000000 + 1 / 2⌋).toNat
  toString (n / 10000000000) ++ "." ++ frac_digits10 (n % 10000000000)

/-- One rendered ladder row, with the three string fields of the JSON
object pushed by `display_liquidity_ladder` (`lock_category`,
`amount`, `class`). -/
structure LadderRow where
  lock_category : String
  amount : String
  css_class : String
deriving DecidableEq, Repr

/-- Rendering of one `LadderEntry` into its JSON row: a present bucket
gets `format!("{:.10}", amount)` and its CSS class, an absent bucket
the sentinel strings `none`/`none`. -/
def render_entry (e : LadderEntry) : LadderRow :=
  match e.amount with
  | some a => ⟨e.lock_category, format_fixed10 a, class_of e.lock_category⟩
  | none => ⟨e.lock_category, "none", "none"⟩

/-- The fully rendered ladder (the `account_data` vector of
`display_liquidity_ladder`). -/
def render_ladder (t_now : ℤ) (ivs : List LockedInterval) : List LadderRow :=
  (display_liquidity_ladder t_now ivs).map render_entry

/-- The subset of `serde_json` values the report document uses.
`serde` serializes the unit value `()` as `null`. -/
inductive JVal where
  | null
  | str (s : String)
  | arr (xs : List JVal)
  | obj (fields : List (String × JVal))

/-- Field lookup in a JSON object value. -/
def obj_field : JVal → String → Option JVal
  | .obj fields, k => fields.lookup k
  | _, _ => none

/-- One ladder row as the JSON object pushed into `account_data`. -/
def row_to_json (r : LadderRow) : JVal :=
  .obj [("lock_category", .str r.lock_category),
        ("amount", .str r.amount),
        ("class", .str r.css_class)]

/-- `display_lock_totals`: fetches `balances.locks` (`?` propagates a
transport failure), prints the totals, and returns unit — nothing of
the lock list reaches the caller. -/
def display_lock_totals (env : FetchEnv) : Except Fail Unit := do
  let _ ← env.account_locks
  .ok ()

/-- `calculate_vesting_datetimes(starting_block, total_blocks_until_vested,
current_block)`.  The anchor datetime depends on `GENESIS_THRESHOLD`;
both offsets are converted to whole minutes with truncating integer
division (`blocks * 6 / 60`) before being added.  The `current_block`
parameter is unused, as in the source. -/
def calculate_vesting_datetimes (starting_block total_blocks_until_vested : ℕ)
    (_current_block : ℕ) : ℤ × ℤ :=
  let base_datetime :=
    if starting_block < GENESIS_THRESHOLD then EPOCH_2020 else EPOCH_2023
  let minutes_diff_start : ℤ := ((starting_block : ℤ) * SECONDS_PER_BLOCK) / MINUTES_PER_HOUR
  let start_datetime := base_datetime + 60 * minutes_diff_start
  let minutes_diff_end : ℤ :=
    ((total_blocks_until_vested : ℤ) * SECONDS_PER_BLOCK) / MINUTES_PER_HOUR
  let end_datetime := start_datetime + 60 * minutes_diff_end
  (start_datetime, end_datetime)

/-- The per-entry computation of the `display_vesting_info` loop
(lines 668–686): `total_blocks_until_vested = locked / per_block`
(truncating `u128` division; division by zero panics, modelled as
`none`), narrowed with `as u32`, then the start/end datetimes and
the token conversions of `locked` and `per_block`. -/
def vesting_row (info : VestingInfo) (current_block : ℕ) :
    Option (ℤ × ℤ × ℚ × ℚ) :=
  if info.per_block = 0 then none
  else
    let total_blocks_until_vested := info.locked / info.per_block
    let (s, e) := calculate_vesting_datetimes info.starting_block
      (total_blocks_until_vested % 2 ^ 32) current_block
    some (s, e, (info.locked : ℚ) / 10000000000,
      (info.per_block : ℚ) / 10000000000)

/-- The printing loop of `display_vesting_info`: walks the vesting
entries, panicking (division by zero) at the first entry with
`per_block = 0`; otherwise only prints. -/
def vesting_loop (current_block : ℕ) : List VestingInfo → Except Fail Unit
  | [] => .ok ()
  | info :: rest =>
      match vesting_row info current_block with
      | some _ => vesting_loop current_block rest
      | none => .error (.panicked ("attempt to divide by zero"))

/-- `display_vesting_info`: fetch `vesting.vesting` (`?`); when a
schedule list is present, take a fresh finalized-head sample (`?`; an
empty subscription is tolerated and just prints), then run the
printing loop.  Returns unit — the vesting data itself never reaches
the caller. -/
def display_vesting_info (env : FetchEnv) : Except Fail Unit := do
  let vesting_data_opt ← env.vesting
  match vesting_data_opt with
  | some vesting_data => do
      let blk ← env.current_block2
      match blk with
      | some current_block_number => vesting_loop current_block_number vesting_data
      | none => .ok ()
  | none => .ok ()

/-- `gather_and_cross_reference`: `liquidity_data` starts as the empty
object and is replaced by the rendered ladder only when
`classLocksFor` returned a value (fetching the finalized head and
processing the class locks, all with `?`); then `display_lock_totals`
and `display_vesting_info` run for their console output, and the
returned document carries their unit results — serialized as `null` —
in the `locks` and `vesting` fields. -/
def gather_and_cross_reference (env : FetchEnv) : Except Fail JVal := do
  let liquidity_data ← (do
    match ← env.class_locks with
    | some class_locks => do
        let current_block_number ← env.current_block
        let locked_intervals ← process_class_locks env current_block_number class_locks
        .ok (JVal.obj [("locks",
          JVal.arr ((render_ladder env.t_now locked_intervals).map row_to_json))])
    | none => .ok (JVal.obj []))
  let lock_totals_data ← display_lock_totals env
  let vesting_data ← display_vesting_info env
  let _ := lock_totals_data
  let _ := vesting_data
  .ok (JVal.obj [("liquidity", liquidity_data),
                 ("locks", JVal.null),
                 ("vesting", JVal.null)])

/-- `process_address`: the balance and balance-locks prefetches are
`if let Err(e) = …` — their transport failures are only logged — but
`gather_and_cross_reference` is awaited with `?`, so its failure
propagates.  On success the account document is built. -/
def process_address (env : FetchEnv) (address : String) : Except Fail JVal := do
  let _ := match env.balance with | .ok _ => () | .error _ => ()
  let _ := match env.account_locks with | .ok _ => () | .error _ => ()
  let xr_data ← gather_and_cross_reference env
  .ok (JVal.obj [("address", JVal.str address), ("data", xr_data)])

/-- The address loop of `main` (lines 720–723): each account document
is awaited with `?`, so the first propagated failure ends the run and
no later address is processed. -/
def process_addresses : List (String × FetchEnv) → Except Fail (List JVal)
  | [] => .ok []
  | (address, env) :: rest => do
      let data ← process_address env address
      let tail ← process_addresses rest
      .ok (data :: tail)

/-- The six CSS bucket tags of the report. -/
def css_tags : List String :=
  ["locked-0-days", "locked-1-7-days", "locked-8-14-days",
   "locked-15-28-days", "locked-29-60-days", "locked-60-plus-days"]

/-- An absent ladder row (`amount` and `class` both the sentinel). -/
def absent_row (cat : String) : LadderRow := ⟨cat, "none", "none"⟩

/-- The six absent rows, in emission order (60+ first), as JSON. -/
def absent_ladder_json : List JVal :=
  (lock_order.reverse.map absent_row).map row_to_json

/-- The account document of an account whose class-locks storage is
absent and whose display passes succeed. -/
def empty_account_doc : JVal :=
  JVal.obj [("liquidity", JVal.obj []), ("locks", JVal.null),
            ("vesting", JVal.null)]

/-- The inter-bucket dominance walk as the spec sentence words it
(written from the claim, not from the source, for comparison with
`display_liquidity_ladder`): walk from the longest horizon down to the
shortest tracking `max_seen_amount`; a bucket with no entry, or whose
amount is not strictly greater than the running maximum, is emitted
absent. -/
def spec_dominance_walk (m : String → Option (ℚ × ℤ)) : List LadderEntry :=
  (lock_order.reverse.foldl
    (fun acc cat =>
      match m cat with
      | some (amount, _) =>
          if acc.1 < amount then (amount, acc.2 ++ [⟨cat, some amount⟩])
          else (acc.1, acc.2 ++ [⟨cat, none⟩])
      | none => (acc.1, acc.2 ++ [⟨cat, none⟩]))
    ((0 : ℚ), ([] : List LadderEntry))).2

/-- A benign environment: every read succeeds, every storage item is
absent, the head is block 100, and `T_now` is the epoch. -/
def env_ok : FetchEnv where
  balance := .ok none
  account_locks := .ok none
  class_locks := .ok none
  current_block := .ok 100
  voting := fun _ => .ok none
  ref_info := fun _ => .ok none
  vesting := .ok none
  current_block2 := .ok none
  t_now := 0

/-- A benign environment whose referendum-info read always yields an
`Approved` record at block `b`. -/
def env_ref (b : ℕ) : FetchEnv :=
  { env_ok with ref_info := fun _ => .ok (some (.Approved b)) }

/-- Environment whose class-locks read fails in transport. -/
def env_bad_class_locks : FetchEnv :=
  { env_ok with class_locks := .error (.transport ("boom")) }

/-- Environment whose balance-locks read fails in transport. -/
def env_bad_locks : FetchEnv :=
  { env_ok with account_locks := .error (.transport ("locks")) }

/-- Environment whose balance read fails in transport. -/
def env_bad_balance : FetchEnv :=
  { env_ok with balance := .error (.transport ("bal")) }

/-- Environment of scenario S4: class-locks present but empty, no
vesting, all reads succeed. -/
def env_s4 : FetchEnv :=
  { env_ok with class_locks := .ok (some []) }

/-- Environment with a vesting entry whose `per_block` is zero. -/
def env_div0 : FetchEnv :=
  { env_ok with
    vesting := .ok (some [⟨2000000000000, 0, 1⟩]),
    current_block2 := .ok (some 20000000) }

/-- Environment with one class lock whose finalized-head fetch fails
in transport. -/
def env_bad_head : FetchEnv :=
  { env_ok with
    class_locks := .ok (some [(0, 5)]),
    current_block := .error (.transport ("head")) }

/-- Environment with one class lock whose voting read fails in
transport. -/
def env_bad_voting : FetchEnv :=
  { env_ok with
    class_locks := .ok (some [(0, 5)]),
    voting := fun _ => .error (.transport ("votes")) }

/-- Environment with one class lock and one casting vote whose
referendum-info read fails in transport. -/
def env_bad_ref : FetchEnv :=
  { env_ok with
    class_locks := .ok (some [(0, 5)]),
    voting := fun _ => .ok (some (.Casting [(9, .Standard 2 7)])),
    ref_info := fun _ => .error (.transport ("ref")) }

/-- Environment whose vesting read fails in transport. -/
def env_bad_vesting : FetchEnv :=
  { env_ok with vesting := .error (.transport ("vest")) }

/-- Environment of a vesting-bearing account: one well-formed vesting
schedule (200 tokens, 1 token per block), every read succeeding. -/
def env_vest : FetchEnv :=
  { env_ok with
    vesting := .ok (some [⟨2000000000000, 10000000000, 1⟩]),
    current_block2 := .ok (some 100) }

/-! ## Helper lemmas -/

/-- The emission fold of `display_liquidity_ladder` appends one row
per bucket, present exactly when the bucket is in the map; the
`max_lock_amount` component of the accumulator never influences the
rows. -/
theorem ladder_foldl_entries (m : String → Option (ℚ × ℤ)) :
    ∀ (l : List String) (acc : ℚ × List LadderEntry),
      (l.foldl (ladder_step m) acc).2 =
        acc.2 ++ l.map (fun c => ⟨c, (m c).map Prod.fst⟩) := by
  intro l
  induction l with
  | nil => intro acc; simp
  | cons c rest ih =>
      intro acc
      rw [List.foldl_cons, ih, List.map_cons]
      cases h : m c with
      | none => simp [ladder_step, h]
      | some p =>
          obtain ⟨a, d⟩ := p
          simp [ladder_step, h]

/-- Characterization of the emitted ladder: one row per bucket of
`lock_order.reverse`, carrying the reduced amount when the bucket is
occupied and nothing otherwise. -/
theorem display_ladder_entries (t_now : ℤ) (ivs : List LockedInterval) :
    display_liquidity_ladder t_now ivs =
      lock_order.reverse.map
        (fun c => ⟨c, (categorized_amounts t_now ivs c).map Prod.fst⟩) := by
  unfold display_liquidity_ladder
  rw [ladder_foldl_entries]
  simp

/-- The fractional-digit string always has exactly ten characters. -/
theorem frac_digits10_length (n : ℕ) : (frac_digits10 n).length = 10 := by
  have h : (frac_digits10 n).length =
      ((List.range 10).map (fun i => Nat.digitChar (n / 10 ^ (9 - i) % 10))).length := rfl
  rw [h]
  simp

/-- Every `{:.10}`-formatted amount splits as an integer part, a
point, and exactly ten fractional digits. -/
theorem format_fixed10_split (q : ℚ) :
    ∃ pre post, format_fixed10 q = pre ++ "." ++ post ∧ post.length = 10 :=
  ⟨toString ((⌊q * 10000000000 + 1 / 2⌋).toNat / 10000000000),
   frac_digits10 ((⌊q * 10000000000 + 1 / 2⌋).toNat % 10000000000),
   rfl, frac_digits10_length _⟩

/-- The CSS class of any bucket name is one of the six report tags. -/
theorem class_of_mem_css_tags (cat : String) : class_of cat ∈ css_tags := by
  unfold class_of css_tags
  split_ifs <;> simp

/-- The ladder of an empty interval set is the six absent rows,
whatever the sampled wall clock. -/
theorem render_ladder_nil (t_now : ℤ) :
    render_ladder t_now [] = lock_order.reverse.map absent_row := rfl

/-- Rust's `?` on a successful read: binding a ready `Except.ok`
continues with its value. -/
theorem fail_bind_ok {α β : Type} (a : α) (f : α → Except Fail β) :
    ((Except.ok a : Except Fail α) >>= f) = f a := rfl

/-- If the two unit display passes of `gather_and_cross_reference`
are followed by a continuation and the whole computation succeeds,
both passes succeeded and the result is the continuation's. -/
theorem unit_steps_ok {β : Type} (env : FetchEnv)
    (k : Unit → Unit → Except Fail β) (v : β)
    (h : (display_lock_totals env >>= fun a =>
          display_vesting_info env >>= fun b => k a b) = .ok v) :
    ∃ a b, k a b = .ok v := by
  cases h1 : display_lock_totals env with
  | error e => rw [h1] at h; exact Except.noConfusion h
  | ok a =>
      rw [h1] at h
      cases h2 : display_vesting_info env with
      | error e => rw [h2] at h; exact Except.noConfusion h
      | ok b => rw [h2] at h; exact ⟨a, b, h⟩

/-! ## Claim theorems -/

/-- C8: for every interval end instant (given here by the signed
duration `end_at − T_now` in seconds), the code's bucketing function —
`num_days`, a truncating division — assigns exactly the bucket of the
claim's `d = floor((end_at − T_now) in days)` range table. -/
theorem categorize_lock_period_eq_floor_buckets (dur_secs : ℤ) :
    categorize_lock_period dur_secs = bucket_by_floor_days dur_secs := by
  unfold categorize_lock_period bucket_by_floor_days
  rcases le_or_lt 0 dur_secs with hs | hs
  · rw [Int.tdiv_eq_ediv hs (by norm_num), Int.fdiv_eq_ediv _ (by norm_num)]
  · have h1 : (0 : ℤ) ≤ -dur_secs := by omega
    have h2 := Int.tdiv_nonneg h1 (by norm_num : (0 : ℤ) ≤ 86400)
    rw [Int.neg_tdiv] at h2
    have ht : Int.tdiv dur_secs 86400 ≤ 0 := by omega
    have hf : Int.fdiv dur_secs 86400 ≤ 0 :=
      le_of_lt (Int.fdiv_neg' hs (by norm_num))
    simp [ht, hf]

/-- C9: when a vote's referendum reference block (101) exceeds the
once-sampled head (100), the unguarded `u32` subtraction in
`calculate_end_datetime` underflows and the program panics instead of
emitting an interval or skipping the vote. -/
theorem reference_block_above_head_panics :
    process_casting_votes (env_ref 101) 100 [(1, .Standard 134 1000000000000)] =
      .error (.panicked ("calculate_end_datetime")) := rfl

/-- C10: a chain-reported vesting entry with `per_block = 0` makes
`display_vesting_info` divide by zero and panic rather than skip or
report the entry. -/
theorem vesting_per_block_zero_panics :
    display_vesting_info env_div0 =
      .error (.panicked ("attempt to divide by zero")) := rfl

/-- C2 (code evaluated at the failing input): a Standard vote with
vote byte 134 (aye, conviction 6) on a referendum whose reference
block is 10 blocks behind the head is emitted with
`start_date = T_now` — `calculate_end_datetime` returns
`current_block_datetime`, not the computed `base_block_datetime` — so
`end_at − start_at` is `28·2⁶ days − 60 s`, not the claimed
`28·2⁶ days`. -/
theorem standard_vote_lock_duration_short_by_block_gap :
    process_casting_votes (env_ref 90) 100 [(1, .Standard 134 1000000000000)] =
      .ok [⟨0, 154828740, (1000000000000 : ℚ) / 10000000000⟩] ∧
    (154828740 : ℤ) - 0 ≠ 28 * 2 ^ 6 * 86400 := ⟨rfl, by decide⟩

/-- C3 (code evaluated at the failing input): a Standard vote with
conviction 0 on a referendum 500000 blocks (≈ 34.7 days) behind the
head is emitted with `start_date = T_now = 0` and
`end_date = −3000000 + 2419200 = −580800`, violating the claimed
`start_at ≤ end_at` (the amount, 10, is indeed non-negative). -/
theorem emitted_interval_start_exceeds_end :
    process_casting_votes (env_ref 100000) 600000 [(7, .Standard 0 100000000000)] =
      .ok [⟨0, -580800, (100000000000 : ℚ) / 10000000000⟩] ∧
    ¬ ((0 : ℤ) ≤ -580800) := ⟨rfl, by decide⟩

/-- C1 (counterexample): the engine does not emit dominated buckets as
absent.  With a 50-token lock in `60+d` and a 30-token lock in
`29–60d`, the output differs from the claim's dominance walk (which
would emit the dominated 30 as absent); and with a 70-token lock in
`29–60d` under a 50-token lock in `60+d`, the non-absent amounts read
`[70, 50]` from the shortest non-absent bucket to the longest — not
strictly increasing. -/
theorem ladder_dominance_walk_refuted :
    display_liquidity_ladder 0 [⟨0, 3456000, 30⟩, ⟨0, 8640000, 50⟩] ≠
      spec_dominance_walk
        (categorized_amounts 0 [⟨0, 3456000, 30⟩, ⟨0, 8640000, 50⟩]) ∧
    ¬ List.Chain' (fun a b : ℚ => a < b)
      (((display_liquidity_ladder 0
          [⟨0, 3456000, 70⟩, ⟨0, 8640000, 50⟩]).reverse).filterMap
        (fun e => e.amount)) := by
  constructor
  · decide
  · have h : (((display_liquidity_ladder 0
        [⟨0, 3456000, 70⟩, ⟨0, 8640000, 50⟩]).reverse).filterMap
        (fun e => e.amount)) = [70, 50] := rfl
    rw [h]
    norm_num [List.chain'_cons]

/-- C1 (amended): the engine walks the buckets from the longest
horizon down to the shortest updating `max_lock_amount`, but the
running maximum is never consulted for emission — every bucket
occupied after intra-bucket reduction is emitted with its reduced
amount, and only never-touched buckets are emitted absent.  The
non-absent amounts are therefore not necessarily monotone. -/
theorem ladder_emits_every_occupied_bucket (t_now : ℤ)
    (ivs : List LockedInterval) :
    display_liquidity_ladder t_now ivs =
      lock_order.reverse.map
        (fun c => ⟨c, (categorized_amounts t_now ivs c).map Prod.fst⟩) :=
  display_ladder_entries t_now ivs

/-- C5 (counterexample): the output ladder is not in listing order
with `0d` first — it is emitted in the reverse order, `Locked 60+
Days` first and `Locked 0 Days` last (shown here on the empty
interval set). -/
theorem ladder_order_not_listing_order :
    (display_liquidity_ladder 0 []).map (fun e => e.lock_category) ≠
      lock_order ∧
    (display_liquidity_ladder 0 []).map (fun e => e.lock_category) =
      lock_order.reverse := by
  constructor
  · decide
  · decide

/-- C5 (amended): for every input the rendered ladder has exactly six
entries, ordered from the `60+d` bucket down to the `0d` bucket
(reverse listing order), each carrying either a formatted amount with
ten fractional digits plus one of the six bucket-class tags, or the
sentinel `none`/`none`. -/
theorem ladder_output_shape (t_now : ℤ) (ivs : List LockedInterval) :
    (render_ladder t_now ivs).length = 6 ∧
    (render_ladder t_now ivs).map (fun r => r.lock_category) =
      lock_order.reverse ∧
    ∀ r ∈ render_ladder t_now ivs,
      (r.css_class ∈ css_tags ∧
        ∃ pre post, r.amount = pre ++ "." ++ post ∧ post.length = 10) ∨
      (r.amount = "none" ∧ r.css_class = "none") := by
  have hl : render_ladder t_now ivs =
      lock_order.reverse.map
        (fun c => render_entry
          ⟨c, (categorized_amounts t_now ivs c).map Prod.fst⟩) := by
    rw [render_ladder, display_ladder_entries, List.map_map]
    rfl
  refine ⟨?_, ?_, ?_⟩
  · rw [hl]
    simp [lock_order]
  · rw [hl, List.map_map]
    have hcomp : ((fun r : LadderRow => r.lock_category) ∘
        (fun c => render_entry
          ⟨c, (categorized_amounts t_now ivs c).map Prod.fst⟩)) =
        fun c => c := by
      funext c
      cases h : (categorized_amounts t_now ivs c).map Prod.fst <;>
        simp [render_entry, h]
    rw [hcomp]
    simp
  · rw [hl]
    intro r hr
    rw [List.mem_map] at hr
    obtain ⟨c, hc, rfl⟩ := hr
    cases h : (categorized_amounts t_now ivs c).map Prod.fst with
    | none =>
        right
        simp [render_entry, h]
    | some a =>
        left
        constructor
        · simpa [render_entry, h] using class_of_mem_css_tags c
        · simpa [render_entry, h] using format_fixed10_split a

/-- C4 (counterexample): a transport failure on a single per-account
storage read — here the class-locks read of the first account — does
abort the run: `main`'s loop propagates it, and the second account is
never processed. -/
theorem class_locks_failure_aborts_run :
    process_addresses [("alice", env_bad_class_locks), ("bob", env_ok)] =
      .error (.transport ("boom")) := rfl

/-- C4 (amended): only the balance and balance-locks prefetch reads of
`process_address` are log-and-continue; the account document depends
solely on `gather_and_cross_reference`, and a transport failure on any
read inside it — class locks, the finalized-head fetch, voting,
referendum info, the balance-locks read repeated by the lock-totals
display, or vesting — propagates out of `process_address` and aborts
the run. -/
theorem process_address_error_policy (env : FetchEnv) (address : String) :
    (∀ e, env.class_locks = .error e →
      process_address env address = .error e) ∧
    (∀ e cls, env.class_locks = .ok (some cls) →
      env.current_block = .error e →
      process_address env address = .error e) ∧
    (∀ e c a cb, env.class_locks = .ok (some [(c, a)]) →
      env.current_block = .ok cb → env.voting c = .error e →
      process_address env address = .error e) ∧
    (∀ e c a cb r v, env.class_locks = .ok (some [(c, a)]) →
      env.current_block = .ok cb →
      env.voting c = .ok (some (.Casting [(r, v)])) →
      env.ref_info r = .error e →
      process_address env address = .error e) ∧
    (∀ e, env.class_locks = .ok none → env.account_locks = .error e →
      process_address env address = .error e) ∧
    (∀ e al, env.class_locks = .ok none → env.account_locks = .ok al →
      env.vesting = .error e →
      process_address env address = .error e) ∧
    (∀ v, gather_and_cross_reference env = .ok v →
      process_address env address =
        .ok (JVal.obj [("address", JVal.str address), ("data", v)])) := by
  refine ⟨?_, ?_, ?_, ?_, ?_, ?_, ?_⟩
  · intro e h
    unfold process_address gather_and_cross_reference
    rw [h]; rfl
  · intro e cls h1 h2
    unfold process_address gather_and_cross_reference
    rw [h1, h2]; rfl
  · intro e c a cb h1 h2 h3
    unfold process_address gather_and_cross_reference
    rw [h1, h2]
    simp only [fail_bind_ok, process_class_locks]
    rw [h3]; rfl
  · intro e c a cb r v h1 h2 h3 h4
    unfold process_address gather_and_cross_reference
    rw [h1, h2]
    simp only [fail_bind_ok, process_class_locks]
    rw [h3]
    simp only [fail_bind_ok, process_casting_votes]
    rw [h4]; rfl
  · intro e h1 h2
    unfold process_address gather_and_cross_reference display_lock_totals
    rw [h1, h2]; rfl
  · intro e al h1 h2 h3
    unfold process_address gather_and_cross_reference display_lock_totals
      display_vesting_info
    rw [h1, h2, h3]; rfl
  · intro v h
    unfold process_address
    rw [h]; rfl

/-- Witness for C4's amended theorem: transport failures on class
locks, the finalized-head fetch, voting, referendum info, the
balance-locks read, and vesting each abort the run, while a balance
transport failure alone still yields the account document. -/
theorem process_address_error_policy_witness :
    process_address env_bad_class_locks ("alice") =
      .error (.transport ("boom")) ∧
    process_address env_bad_head ("bea") = .error (.transport ("head")) ∧
    process_address env_bad_voting ("carol") =
      .error (.transport ("votes")) ∧
    process_address env_bad_ref ("dan") = .error (.transport ("ref")) ∧
    process_address env_bad_locks ("eve") = .error (.transport ("locks")) ∧
    process_address env_bad_vesting ("fred") =
      .error (.transport ("vest")) ∧
    process_address env_bad_balance ("gus") =
      .ok (JVal.obj [("address", JVal.str ("gus")),
                     ("data", empty_account_doc)]) :=
  ⟨(process_address_error_policy env_bad_class_locks ("alice")).1 _ rfl,
   (process_address_error_policy env_bad_head ("bea")).2.1 _ [(0, 5)]
     rfl rfl,
   (process_address_error_policy env_bad_voting ("carol")).2.2.1 _ 0 5 100
     rfl rfl rfl,
   (process_address_error_policy env_bad_ref ("dan")).2.2.2.1 _ 0 5 100 9
     (.Standard 2 7) rfl rfl rfl rfl,
   (process_address_error_policy env_bad_locks ("eve")).2.2.2.2.1 _ rfl rfl,
   (process_address_error_policy env_bad_vesting ("fred")).2.2.2.2.2.1 _ none
     rfl rfl rfl,
   (process_address_error_policy env_bad_balance ("gus")).2.2.2.2.2.2
     empty_account_doc rfl⟩

/-- C6 (counterexample): for `locked = 3`, `per_block = 2` the claim
demands `end_at − start_at = ceil(3/2) = 2` blocks of 6 s, i.e. 12 s;
the code computes `3 / 2 = 1` by truncating division and then
truncates `1 · 6 s` to whole minutes, yielding 0 s. -/
theorem vesting_total_blocks_not_ceiled :
    (vesting_row ⟨3, 2, 9000000⟩ 0).map (fun r => r.2.1 - r.1) = some 0 ∧
    (0 : ℤ) ≠ 6 * 2 := ⟨rfl, by decide⟩

/-- C6 (amended): for every vesting entry with `per_block ≠ 0` the
resolver computes `total_blocks = floor(locked / per_block)` (plain
truncating `u128` division, narrowed `as u32`), and
`end_at − start_at` equals `total_blocks · 6` seconds truncated to
whole minutes, i.e. `60 · (total_blocks / 10)` seconds. -/
theorem vesting_duration_floor_blocks_minutes (info : VestingInfo)
    (current_block : ℕ) (h : info.per_block ≠ 0) :
    (vesting_row info current_block).map (fun r => r.2.1 - r.1) =
      some (60 * ((info.locked / info.per_block % 2 ^ 32) / 10 : ℕ)) := by
  unfold vesting_row calculate_vesting_datetimes
  rw [if_neg h]
  simp only [Option.map_some', SECONDS_PER_BLOCK, MINUTES_PER_HOUR]
  congr 1
  push_cast
  omega

/-- Witness for C6's amended theorem at `locked = 200`,
`per_block = 3`: `total_blocks = 66` and the duration is
`60 · 6 = 360` seconds. -/
theorem vesting_duration_floor_blocks_minutes_witness :
    (VestingInfo.mk 200 3 1).per_block ≠ 0 ∧
    (vesting_row ⟨200, 3, 1⟩ 0).map (fun r => r.2.1 - r.1) =
      some (60 * ((200 / 3 % 2 ^ 32) / 10 : ℕ)) :=
  ⟨by decide, vesting_duration_floor_blocks_minutes ⟨200, 3, 1⟩ 0 (by decide)⟩

/-- C7 (counterexample): for the scenario-S4 account (class locks
present but empty, no vesting) the composed document's `vesting`
field is `null` — the unit result of the display pass — not the empty
list the claim requires. -/
theorem report_vesting_field_null :
    (gather_and_cross_reference env_s4).map
        (fun d => obj_field d ("vesting")) = .ok (some JVal.null) ∧
    some JVal.null ≠ some (JVal.arr ([] : List JVal)) := by
  refine ⟨rfl, ?_⟩
  intro h
  exact JVal.noConfusion (Option.some.inj h)

/-- C7 (amended): vesting schedules and balance-lock entries are only
printed to the console.  For every account whose run succeeds —
whatever its vesting schedules or balance locks hold — the composed
document carries the unit results of the display passes, serialized as
`null`, in its `locks` and `vesting` fields; an account with absent
class locks gets the empty object as its `liquidity` field, and one
with an empty class-locks list gets a ladder of six absent entries. -/
theorem report_locks_vesting_null (env : FetchEnv) (doc : JVal)
    (h : gather_and_cross_reference env = .ok doc) :
    obj_field doc ("locks") = some JVal.null ∧
    obj_field doc ("vesting") = some JVal.null ∧
    (env.class_locks = .ok none →
      obj_field doc ("liquidity") = some (JVal.obj [])) ∧
    (env.class_locks = .ok (some []) →
      obj_field doc ("liquidity") =
        some (JVal.obj [("locks", JVal.arr absent_ladder_json)])) := by
  unfold gather_and_cross_reference at h
  cases hcl : env.class_locks with
  | error e => rw [hcl] at h; exact Except.noConfusion h
  | ok copt =>
      rw [hcl] at h
      cases copt with
      | none =>
          simp only [fail_bind_ok] at h
          obtain ⟨a, b, hk⟩ := unit_steps_ok env _ doc h
          have hdoc := (Except.ok.inj hk).symm
          subst hdoc
          refine ⟨rfl, rfl, fun _ => rfl, fun hx => ?_⟩
          exact Option.noConfusion (Except.ok.inj hx)
      | some cls =>
          simp only [fail_bind_ok] at h
          cases hcb : env.current_block with
          | error e => rw [hcb] at h; exact Except.noConfusion h
          | ok cb =>
              rw [hcb] at h
              simp only [fail_bind_ok] at h
              cases hpc : process_class_locks env cb cls with
              | error e => rw [hpc] at h; exact Except.noConfusion h
              | ok ivs =>
                  rw [hpc] at h
                  simp only [fail_bind_ok] at h
                  obtain ⟨a, b, hk⟩ := unit_steps_ok env _ doc h
                  have hdoc := (Except.ok.inj hk).symm
                  subst hdoc
                  refine ⟨rfl, rfl, fun hx => ?_, fun hx => ?_⟩
                  · exact Option.noConfusion (Except.ok.inj hx)
                  · have hcls : cls = [] :=
                      Option.some.inj (Except.ok.inj hx)
                    subst hcls
                    have hivs : ivs = ([] : List LockedInterval) :=
                      (Except.ok.inj hpc).symm
                    subst hivs
                    rfl

/-- Witness for C7's amended theorem at a vesting-bearing account
(one 200-token schedule, all reads succeeding): its document is the
empty-liquidity document with `locks` and `vesting` both `null`. -/
theorem report_locks_vesting_null_witness :
    obj_field empty_account_doc ("locks") = some JVal.null ∧
    obj_field empty_account_doc ("vesting") = some JVal.null ∧
    (env_vest.class_locks = .ok none →
      obj_field empty_account_doc ("liquidity") = some (JVal.obj [])) ∧
    (env_vest.class_locks = .ok (some []) →
      obj_field empty_account_doc ("liquidity") =
        some (JVal.obj [("locks", JVal.arr absent_ladder_json)])) :=
  report_locks_vesting_null env_vest empty_account_doc rfl

end LocksReport
